import Mathlib

/-!
Shallow embedding of the terraform-provider-pathfinder reconciler and probes.

The Go source under src/ is embedded as pure Lean functions:

* Go float64 values are modelled by GoFloat: a rational payload for finite
  values plus NaN and infinity markers.  The provider only copies and
  compares these values, and json.Marshal rejects exactly NaN and the
  infinities, so this carries all behaviour the code exercises.
* Go int64 values are modelled by Int.  The provider only copies them and
  no claim touches 64-bit wraparound.
* JSON documents are the inductive Json below; the lenient decoding rules
  of encoding/json (unknown object fields ignored, absent fields left at
  the zero value, null accepted anywhere, type mismatches rejected) are
  reproduced by the field decoders.
* The HTTP layer is a function from the constructed request to a
  transport result (a transport error with its message, or a status code
  with a JSON body).  Each lifecycle function records the requests it
  issued, the diagnostics it appended, and the tracked state it left
  behind, in an Outcome value.
* Diagnostics are modelled by their AddError summary string together with
  the underlying error text; the long static explanation sentences of the
  Go detail strings are elided.
-/

/-- Surrogate for a Go float64: a finite rational value, NaN, or a signed
infinity.  The provider never does float arithmetic, so this is faithful
for everything the code exercises. -/
inductive GoFloat where
  | finite (val : ℚ)
  | nan
  | inf (neg : Bool)
deriving DecidableEq, Repr

/-- JSON documents, as produced and consumed by encoding/json. -/
inductive Json where
  | null
  | bool (b : Bool)
  | num (q : ℚ)
  | str (s : String)
  | arr (elems : List Json)
  | obj (fields : List (String × Json))

/-- Field lookup in a JSON object; with duplicate keys the last one wins,
as in encoding/json. -/
def Json.lookupField (fields : List (String × Json)) (key : String) : Option Json :=
  fields.foldl (fun acc p => if p.1 = key then some p.2 else acc) none

/-- A diagnostic appended via resp.Diagnostics.AddError: the summary string
from the source, plus the underlying error text. -/
inductive Diag where
  | error (summary : String) (err : String)
deriving DecidableEq, Repr

/-- ClientConfig from internal/clients/client.go. -/
structure ClientConfig where
  address : String
  apiKey : String
deriving DecidableEq, Repr

/-- An HTTP request as constructed by http.NewRequestWithContext: method,
full URL, and the marshalled JSON body (none stands for the empty body
used by GET and DELETE, and for the nil buffer sent when marshalling
failed). -/
structure HttpRequest where
  method : String
  url : String
  body : Option Json

/-- Result of HttpClient.Do: either a transport error carrying its message,
or a completed response with a status code and a JSON body. -/
inductive TransportResult where
  | transportError (msg : String)
  | response (status : Nat) (body : Json)

/-- The environment the provider talks to: a deterministic server mapping
each issued request to a transport result. -/
def Server : Type := HttpRequest → TransportResult

/-- Result of one lifecycle call: the diagnostics appended, the tracked
state left behind (none when the object is untracked or removed), and the
HTTP requests issued, in order. -/
structure Outcome (σ : Type) where
  diagnostics : List Diag
  state : Option σ
  requests : List HttpRequest

/-! ## Movement data model (part_001 and internal/clients/model) -/

/-- MovementStepsModel from part_001 (tfsdk block element).  The framework
value wrappers types.Int64, types.String and types.Float64 are modelled by
their payloads, since the schema marks all three attributes Required. -/
structure MovementStepsModel where
  angle : Int
  direction : String
  distance : GoFloat
deriving DecidableEq, Repr

/-- MovementResourceModel from part_001. -/
structure MovementResourceModel where
  name : String
  persist : Bool
  steps : List MovementStepsModel
deriving DecidableEq, Repr

/-- model.MovementStepItem from model_movement_request.go. -/
structure MovementStepItem where
  angle : Int
  direction : String
  distance : GoFloat
deriving DecidableEq, Repr

/-- model.MovementRequest from model_movement_request.go. -/
structure MovementRequest where
  name : String
  persist : Bool
  steps : List MovementStepItem
deriving DecidableEq, Repr

/-- model.MovementResponse: the movement status envelope. -/
structure MovementResponse where
  moving : Bool
deriving DecidableEq, Repr

/-! ## encoding/json: marshalling the movement request -/

/-- json.Marshal of a float64: NaN and the infinities are unsupported
values and make the whole marshal fail. -/
def marshalGoFloat : GoFloat → Except String Json
  | .finite q => .ok (.num q)
  | .nan => .error "json: unsupported value: NaN"
  | .inf _ => .error "json: unsupported value: Inf"

/-- json.Marshal of one model.MovementStepItem. -/
def marshalStepItem (s : MovementStepItem) : Except String Json :=
  match marshalGoFloat s.distance with
  | .error e => .error e
  | .ok d => .ok (.obj [("angle", .num (s.angle : ℚ)), ("direction", .str s.direction),
      ("distance", d)])

/-- json.Marshal of the steps slice, in order. -/
def marshalStepList : List MovementStepItem → Except String (List Json)
  | [] => .ok []
  | s :: rest =>
    match marshalStepItem s, marshalStepList rest with
    | .ok j, .ok js => .ok (j :: js)
    | .error e, _ => .error e
    | .ok _, .error e => .error e

/-- json.Marshal of a model.MovementRequest, as performed in
MovementResource.Create. -/
def jsonMarshalMovementRequest (r : MovementRequest) : Except String Json :=
  match marshalStepList r.steps with
  | .error e => .error e
  | .ok js => .ok (.obj [("name", .str r.name), ("persist", .bool r.persist),
      ("steps", .arr js)])

/-! ## encoding/json: lenient field decoding into Go structs -/

/-- Unmarshal a JSON object field into a Go bool: absent or null leaves the
zero value, a bool is taken as is, anything else is a type error. -/
def decodeBoolField (fields : List (String × Json)) (key : String) : Except String Bool :=
  match Json.lookupField fields key with
  | none => .ok false
  | some .null => .ok false
  | some (.bool b) => .ok b
  | some _ => .error ("json: cannot unmarshal value into bool field " ++ key)

/-- Unmarshal a JSON object field into a Go string. -/
def decodeStringField (fields : List (String × Json)) (key : String) : Except String String :=
  match Json.lookupField fields key with
  | none => .ok ""
  | some .null => .ok ""
  | some (.str s) => .ok s
  | some _ => .error ("json: cannot unmarshal value into string field " ++ key)

/-- Unmarshal a JSON object field into a Go int64: a fractional number is a
type error, as in encoding/json. -/
def decodeIntField (fields : List (String × Json)) (key : String) : Except String Int :=
  match Json.lookupField fields key with
  | none => .ok 0
  | some .null => .ok 0
  | some (.num q) => if q.den = 1 then .ok q.num
      else .error ("json: cannot unmarshal number into int64 field " ++ key)
  | some _ => .error ("json: cannot unmarshal value into int64 field " ++ key)

/-- Unmarshal a JSON object field into a Go float64. -/
def decodeFloatField (fields : List (String × Json)) (key : String) : Except String GoFloat :=
  match Json.lookupField fields key with
  | none => .ok (.finite 0)
  | some .null => .ok (.finite 0)
  | some (.num q) => .ok (.finite q)
  | some _ => .error ("json: cannot unmarshal value into float64 field " ++ key)

/-- json.Decode into a model.MovementResponse: a JSON object with a bool
field named moving; unknown fields are ignored; null leaves the zero
value. -/
def decodeMovementResponse : Json → Except String MovementResponse
  | .null => .ok { moving := false }
  | .obj fields =>
    match decodeBoolField fields "moving" with
    | .error e => .error e
    | .ok m => .ok { moving := m }
  | _ => .error "json: cannot unmarshal value into MovementResponse"

/-! ## encoding/json: unmarshalling a movement request (inverse direction
of the wire shape, per the same lenient rules) -/

/-- json.Decode into one model.MovementStepItem. -/
def unmarshalMovementStepItem : Json → Except String MovementStepItem
  | .null => .ok { angle := 0, direction := "", distance := .finite 0 }
  | .obj fields =>
    match decodeIntField fields "angle", decodeStringField fields "direction",
        decodeFloatField fields "distance" with
    | .ok a, .ok d, .ok di => .ok { angle := a, direction := d, distance := di }
    | .error e, _, _ => .error e
    | .ok _, .error e, _ => .error e
    | .ok _, .ok _, .error e => .error e
  | _ => .error "json: cannot unmarshal value into MovementStepItem"

/-- json.Decode of a list of step items, elementwise and in order. -/
def unmarshalStepList : List Json → Except String (List MovementStepItem)
  | [] => .ok []
  | j :: rest =>
    match unmarshalMovementStepItem j, unmarshalStepList rest with
    | .ok s, .ok ss => .ok (s :: ss)
    | .error e, _ => .error e
    | .ok _, .error e => .error e

/-- Unmarshal the steps field of a movement request into the Go slice. -/
def decodeStepsField (fields : List (String × Json)) : Except String (List MovementStepItem) :=
  match Json.lookupField fields "steps" with
  | none => .ok []
  | some .null => .ok []
  | some (.arr js) => unmarshalStepList js
  | some _ => .error "json: cannot unmarshal value into steps field"

/-- json.Decode into a model.MovementRequest. -/
def unmarshalMovementRequest : Json → Except String MovementRequest
  | .null => .ok { name := "", persist := false, steps := [] }
  | .obj fields =>
    match decodeStringField fields "name", decodeBoolField fields "persist",
        decodeStepsField fields with
    | .ok n, .ok p, .ok ss => .ok { name := n, persist := p, steps := ss }
    | .error e, _, _ => .error e
    | .ok _, .error e, _ => .error e
    | .ok _, .ok _, .error e => .error e
  | _ => .error "json: cannot unmarshal value into MovementRequest"

/-! ## Diagnostics appended by the movement resource (part_001) -/

/-- AddError in Create when json.Marshal fails. -/
def createMarshalDiag (e : String) : Diag := .error "Unable to Create Resource" e

/-- AddError in Create when HttpClient.Do fails (summary as in source). -/
def createTransportDiag (e : String) : Diag := .error "Unable to Refresh Resource" e

/-- AddError in Create when the response body fails to decode. -/
def createDecodeDiag (e : String) : Diag := .error "Unable to Refresh Resource" e

/-- AddError in Read when HttpClient.Do fails (summary as in source). -/
def readTransportDiag (e : String) : Diag := .error "Unable to Create Resource" e

/-- AddError in Read when the response body fails to decode. -/
def readDecodeDiag (e : String) : Diag := .error "Unable to Create Resource" e

/-- AddError in Delete when HttpClient.Do fails. -/
def deleteTransportDiag (e : String) : Diag := .error "Unable to Delete Resource" e

/-- AddError in Delete when the response body fails to decode. -/
def deleteDecodeDiag (e : String) : Diag := .error "Unable to Delete Resource" e

/-! ## MovementResource lifecycle (part_001) -/

/-- The step conversion performed by the loop at part_001 lines 144-150:
one MovementStepsModel becomes one model.MovementStepItem with equal
angle, direction and distance. -/
def toMovementStepItem (step : MovementStepsModel) : MovementStepItem :=
  { angle := step.angle, direction := step.direction, distance := step.distance }

/-- The request construction at part_001 lines 137-150: name and persist
are copied and the steps slice is translated index-wise. -/
def toMovementRequest (data : MovementResourceModel) : MovementRequest :=
  { name := data.name
    persist := data.persist
    steps := data.steps.map toMovementStepItem }

/-- MovementResource.Create from part_001, lines 126-222.  The plan data
has already been decoded by the framework; cfg is the configured client.
Mirrors the source exactly: the steps are translated index-wise into
model.MovementStepItem values, the request is marshalled (note that the
marshal error branch appends a diagnostic but does not return), the POST
is issued, a transport error or a decode error aborts with a diagnostic,
a 404 removes the resource, and on success the plan data itself is saved
as the new state. -/
def MovementResource.Create (cfg : ClientConfig) (data : MovementResourceModel)
    (server : Server) : Outcome MovementResourceModel :=
  let createReq : MovementRequest := toMovementRequest data
  let marshalled := jsonMarshalMovementRequest createReq
  let encodeDiags : List Diag :=
    match marshalled with
    | .error e => [createMarshalDiag e]
    | .ok _ => []
  let httpReqBody : Option Json :=
    match marshalled with
    | .error _ => none
    | .ok j => some j
  let httpReq : HttpRequest :=
    { method := "POST", url := cfg.address ++ "/v1/movement", body := httpReqBody }
  match server httpReq with
  | .transportError msg =>
    { diagnostics := encodeDiags ++ [createTransportDiag msg], state := none,
      requests := [httpReq] }
  | .response status body =>
    if status = 404 then
      { diagnostics := encodeDiags, state := none, requests := [httpReq] }
    else
      match decodeMovementResponse body with
      | .error e =>
        { diagnostics := encodeDiags ++ [createDecodeDiag e], state := none,
          requests := [httpReq] }
      | .ok _ =>
        { diagnostics := encodeDiags, state := some data, requests := [httpReq] }

/-- MovementResource.Read from part_001, lines 224-291.  data is the
previously tracked state.  A transport error or a decode error appends a
diagnostic and leaves the tracked state untouched, a 404 removes the
resource, and on a successful decode the unchanged data is saved back. -/
def MovementResource.Read (cfg : ClientConfig) (data : MovementResourceModel)
    (server : Server) : Outcome MovementResourceModel :=
  let httpReq : HttpRequest :=
    { method := "GET", url := cfg.address ++ "/v1/movement", body := none }
  match server httpReq with
  | .transportError msg =>
    { diagnostics := [readTransportDiag msg], state := some data, requests := [httpReq] }
  | .response status body =>
    if status = 404 then
      { diagnostics := [], state := none, requests := [httpReq] }
    else
      match decodeMovementResponse body with
      | .error e =>
        { diagnostics := [readDecodeDiag e], state := some data, requests := [httpReq] }
      | .ok _ =>
        { diagnostics := [], state := some data, requests := [httpReq] }

/-- MovementResource.Update from part_001, lines 293-305: the plan data is
written straight back as the new state; no HTTP request is constructed and
the server is never consulted. -/
def MovementResource.Update (cfg : ClientConfig) (plan : MovementResourceModel)
    (server : Server) : Outcome MovementResourceModel :=
  { diagnostics := [], state := some plan, requests := [] }

/-- MovementResource.Delete from part_001, lines 307-371.  A transport
error or a decode error appends a diagnostic and leaves the tracked state
in place; a 404 removes the resource; when the function returns without
error diagnostics the plugin framework discards the state, which the model
reflects by returning none on the successful decode path. -/
def MovementResource.Delete (cfg : ClientConfig) (data : MovementResourceModel)
    (server : Server) : Outcome MovementResourceModel :=
  let httpReq : HttpRequest :=
    { method := "DELETE", url := cfg.address ++ "/v1/movement", body := none }
  match server httpReq with
  | .transportError msg =>
    { diagnostics := [deleteTransportDiag msg], state := some data, requests := [httpReq] }
  | .response status body =>
    if status = 404 then
      { diagnostics := [], state := none, requests := [httpReq] }
    else
      match decodeMovementResponse body with
      | .error e =>
        { diagnostics := [deleteDecodeDiag e], state := some data, requests := [httpReq] }
      | .ok _ =>
        { diagnostics := [], state := none, requests := [httpReq] }

/-! ## Response envelopes for the read-only probes (internal/clients/model) -/

/-- model.HealthzResponse. -/
structure HealthzResponse where
  healthy : Bool
deriving DecidableEq, Repr

/-- model.ReadyzResponse. -/
structure ReadyzResponse where
  ready : Bool
deriving DecidableEq, Repr

/-- model.MovementLockResponse. -/
structure MovementLockResponse where
  locked : Bool
deriving DecidableEq, Repr

/-- model.BatteryResponse. -/
structure BatteryResponse where
  unit : String
  value : Int
deriving DecidableEq, Repr

/-- model.WifiNetworkItem. -/
structure WifiNetworkItem where
  encrypted : Bool
  rssi : GoFloat
  ssid : String
deriving DecidableEq, Repr

/-- model.DeviceResponseIdentifiers. -/
structure DeviceResponseIdentifiers where
  long : String
  short : String
deriving DecidableEq, Repr

/-- model.DeviceResponseVersions. -/
structure DeviceResponseVersions where
  api : String
  app : String
deriving DecidableEq, Repr

/-- model.DeviceResponse.  The features map is modelled as an association
list of string keys to bools. -/
structure DeviceResponse where
  features : List (String × Bool)
  identifiers : Option DeviceResponseIdentifiers
  name : String
  uptime : GoFloat
  versions : Option DeviceResponseVersions
deriving DecidableEq, Repr

/-- json.Decode into model.HealthzResponse. -/
def decodeHealthzResponse : Json → Except String HealthzResponse
  | .null => .ok { healthy := false }
  | .obj fields =>
    match decodeBoolField fields "healthy" with
    | .error e => .error e
    | .ok h => .ok { healthy := h }
  | _ => .error "json: cannot unmarshal value into HealthzResponse"

/-- json.Decode into model.ReadyzResponse. -/
def decodeReadyzResponse : Json → Except String ReadyzResponse
  | .null => .ok { ready := false }
  | .obj fields =>
    match decodeBoolField fields "ready" with
    | .error e => .error e
    | .ok r => .ok { ready := r }
  | _ => .error "json: cannot unmarshal value into ReadyzResponse"

/-- json.Decode into model.MovementLockResponse. -/
def decodeMovementLockResponse : Json → Except String MovementLockResponse
  | .null => .ok { locked := false }
  | .obj fields =>
    match decodeBoolField fields "locked" with
    | .error e => .error e
    | .ok l => .ok { locked := l }
  | _ => .error "json: cannot unmarshal value into MovementLockResponse"

/-- json.Decode into model.BatteryResponse. -/
def decodeBatteryResponse : Json → Except String BatteryResponse
  | .null => .ok { unit := "", value := 0 }
  | .obj fields =>
    match decodeStringField fields "unit", decodeIntField fields "value" with
    | .ok u, .ok v => .ok { unit := u, value := v }
    | .error e, _ => .error e
    | .ok _, .error e => .error e
  | _ => .error "json: cannot unmarshal value into BatteryResponse"

/-- json.Decode into one model.WifiNetworkItem. -/
def decodeWifiNetworkItem : Json → Except String WifiNetworkItem
  | .null => .ok { encrypted := false, rssi := .finite 0, ssid := "" }
  | .obj fields =>
    match decodeBoolField fields "encrypted", decodeFloatField fields "rssi",
        decodeStringField fields "ssid" with
    | .ok e, .ok r, .ok s => .ok { encrypted := e, rssi := r, ssid := s }
    | .error e, _, _ => .error e
    | .ok _, .error e, _ => .error e
    | .ok _, .ok _, .error e => .error e
  | _ => .error "json: cannot unmarshal value into WifiNetworkItem"

/-- json.Decode of a list of wifi items, elementwise and in order. -/
def decodeWifiNetworkItemList : List Json → Except String (List WifiNetworkItem)
  | [] => .ok []
  | j :: rest =>
    match decodeWifiNetworkItem j, decodeWifiNetworkItemList rest with
    | .ok i, .ok is => .ok (i :: is)
    | .error e, _ => .error e
    | .ok _, .error e => .error e

/-- json.Decode into a Go slice of model.WifiNetworkItem: the top level
must be an array (or null, giving the nil slice). -/
def decodeWifiNetworkItems : Json → Except String (List WifiNetworkItem)
  | .null => .ok []
  | .arr elems => decodeWifiNetworkItemList elems
  | _ => .error "json: cannot unmarshal value into a slice of WifiNetworkItem"

/-- json.Decode of a JSON object into a Go map of bools, used for the
device features field. -/
def decodeBoolMapEntries : List (String × Json) → Except String (List (String × Bool))
  | [] => .ok []
  | (k, .bool b) :: rest =>
    match decodeBoolMapEntries rest with
    | .ok es => .ok ((k, b) :: es)
    | .error e => .error e
  | (_, .null) :: rest => decodeBoolMapEntries rest
  | (k, _) :: _ => .error ("json: cannot unmarshal value into bool map entry " ++ k)

/-- Unmarshal a JSON object field into a Go map of string to bool. -/
def decodeBoolMapField (fields : List (String × Json)) (key : String) :
    Except String (List (String × Bool)) :=
  match Json.lookupField fields key with
  | none => .ok []
  | some .null => .ok []
  | some (.obj entries) => decodeBoolMapEntries entries
  | some _ => .error ("json: cannot unmarshal value into map field " ++ key)

/-- json.Decode into model.DeviceResponseIdentifiers. -/
def decodeDeviceResponseIdentifiers : Json → Except String DeviceResponseIdentifiers
  | .null => .ok { long := "", short := "" }
  | .obj fields =>
    match decodeStringField fields "long", decodeStringField fields "short" with
    | .ok l, .ok s => .ok { long := l, short := s }
    | .error e, _ => .error e
    | .ok _, .error e => .error e
  | _ => .error "json: cannot unmarshal value into DeviceResponseIdentifiers"

/-- json.Decode into model.DeviceResponseVersions. -/
def decodeDeviceResponseVersions : Json → Except String DeviceResponseVersions
  | .null => .ok { api := "", app := "" }
  | .obj fields =>
    match decodeStringField fields "api", decodeStringField fields "app" with
    | .ok a, .ok p => .ok { api := a, app := p }
    | .error e, _ => .error e
    | .ok _, .error e => .error e
  | _ => .error "json: cannot unmarshal value into DeviceResponseVersions"

/-- Unmarshal a JSON object field into a Go pointer to a nested struct:
absent or null gives nil, an object decodes into the struct. -/
def decodePtrField {α : Type} (dec : Json → Except String α)
    (fields : List (String × Json)) (key : String) : Except String (Option α) :=
  match Json.lookupField fields key with
  | none => .ok none
  | some .null => .ok none
  | some j =>
    match dec j with
    | .ok v => .ok (some v)
    | .error e => .error e

/-- json.Decode into model.DeviceResponse. -/
def decodeDeviceResponse : Json → Except String DeviceResponse
  | .null => .ok { features := [], identifiers := none, name := "",
                   uptime := .finite 0, versions := none }
  | .obj fields =>
    match decodeBoolMapField fields "features",
        decodePtrField decodeDeviceResponseIdentifiers fields "identifiers",
        decodeStringField fields "name", decodeFloatField fields "uptime",
        decodePtrField decodeDeviceResponseVersions fields "versions" with
    | .ok f, .ok i, .ok n, .ok u, .ok v =>
      .ok { features := f, identifiers := i, name := n, uptime := u, versions := v }
    | .error e, _, _, _, _ => .error e
    | .ok _, .error e, _, _, _ => .error e
    | .ok _, .ok _, .error e, _, _ => .error e
    | .ok _, .ok _, .ok _, .error e, _ => .error e
    | .ok _, .ok _, .ok _, .ok _, .error e => .error e
  | _ => .error "json: cannot unmarshal value into DeviceResponse"

/-! ## Data source models (tfsdk side) -/

/-- HealthDataSourceModel; the computed attribute is none until set. -/
structure HealthDataSourceModel where
  healthy : Option Bool
deriving DecidableEq, Repr

/-- ReadyDataSourceModel. -/
structure ReadyDataSourceModel where
  ready : Option Bool
deriving DecidableEq, Repr

/-- MovementLockDataSourceModel. -/
structure MovementLockDataSourceModel where
  locked : Option Bool
deriving DecidableEq, Repr

/-- BatteryDataSourceModel. -/
structure BatteryDataSourceModel where
  value : Option Int
  unit : Option String
deriving DecidableEq, Repr

/-- WifiNetworkModel: elements are always built with value constructors in
the source, so plain payloads are used. -/
structure WifiNetworkModel where
  encrypted : Bool
  rssi : GoFloat
  ssid : String
deriving DecidableEq, Repr

/-- WifiNetworksDataSourceModel; the networks slice is nil (empty) until
set. -/
structure WifiNetworksDataSourceModel where
  networks : List WifiNetworkModel
deriving DecidableEq, Repr

/-- DeviceResponseIdentifiersModel from wifi_networks_data_source.go. -/
structure DeviceResponseIdentifiersModel where
  long : String
  short : String
deriving DecidableEq, Repr

/-- DeviceResponseVersionsModel from wifi_networks_data_source.go. -/
structure DeviceResponseVersionsModel where
  api : String
  app : String
deriving DecidableEq, Repr

/-- DeviceDataSourceModel; every attribute is computed, so each is none
until assigned.  The features attribute is a types.Map that the source
never assigns (the TODO at line 372 of wifi_networks_data_source.go). -/
structure DeviceDataSourceModel where
  name : Option String
  uptime : Option GoFloat
  identifiers : Option DeviceResponseIdentifiersModel
  versions : Option DeviceResponseVersionsModel
  features : Option (List (String × String))
deriving DecidableEq, Repr

/-! ## The read-only probe template

The six data source Read methods (health, ready, battery, movement lock,
wifi networks, device) are textually identical in control flow and differ
only in the request path, the response envelope decoder, and the field
assignments that copy the decoded envelope into the data model.  They are
embedded through one template applied six times; each instantiation
carries the path and the assignments of its own source file. -/

/-- AddError used by every data source Read for transport and decode
failures. -/
def probeDiag (e : String) : Diag := .error "Unable to Refresh Resource" e

/-- The shared body of the six data source Read methods: build the GET
request, send it, report a transport error and keep the state, treat 404
as removal, report a decode failure and keep the state, and otherwise
commit the decoded envelope into the data model. -/
def probeRead {α σ : Type} (path : String) (dec : Json → Except String α)
    (commit : σ → α → σ) (cfg : ClientConfig) (data : σ) (server : Server) :
    Outcome σ :=
  let httpReq : HttpRequest :=
    { method := "GET", url := cfg.address ++ path, body := none }
  match server httpReq with
  | .transportError msg =>
    { diagnostics := [probeDiag msg], state := some data, requests := [httpReq] }
  | .response status body =>
    if status = 404 then
      { diagnostics := [], state := none, requests := [httpReq] }
    else
      match dec body with
      | .error e =>
        { diagnostics := [probeDiag e], state := some data, requests := [httpReq] }
      | .ok v =>
        { diagnostics := [], state := some (commit data v), requests := [httpReq] }

/-- HealthDataSource.Read from internal/provider/health_data_source.go. -/
def HealthDataSource.Read : ClientConfig → HealthDataSourceModel → Server →
    Outcome HealthDataSourceModel :=
  probeRead "/v1/healthz" decodeHealthzResponse
    fun data r => { data with healthy := some r.healthy }

/-- ReadyDataSource.Read from internal/provider/ready_data_source.go. -/
def ReadyDataSource.Read : ClientConfig → ReadyDataSourceModel → Server →
    Outcome ReadyDataSourceModel :=
  probeRead "/v1/readyz" decodeReadyzResponse
    fun data r => { data with ready := some r.ready }

/-- MovementLockDataSource.Read from part_000. -/
def MovementLockDataSource.Read : ClientConfig → MovementLockDataSourceModel → Server →
    Outcome MovementLockDataSourceModel :=
  probeRead "/v1/movement/lock" decodeMovementLockResponse
    fun data r => { data with locked := some r.locked }

/-- BatteryDataSource.Read from part_002. -/
def BatteryDataSource.Read : ClientConfig → BatteryDataSourceModel → Server →
    Outcome BatteryDataSourceModel :=
  probeRead "/v1/device/battery" decodeBatteryResponse
    fun data r => { data with unit := some r.unit, value := some r.value }

/-- WifiNetworksDataSource.Read from wifi_networks_data_source.go: the
decoded items are converted elementwise and in order into
WifiNetworkModel values. -/
def WifiNetworksDataSource.Read : ClientConfig → WifiNetworksDataSourceModel → Server →
    Outcome WifiNetworksDataSourceModel :=
  probeRead "/v1/device/wifi" decodeWifiNetworkItems
    fun data items =>
      { data with networks := items.map fun i =>
          { encrypted := i.encrypted, rssi := i.rssi, ssid := i.ssid } }

/-- expandDeviceResponseIdentifiersModel from wifi_networks_data_source.go. -/
def expandDeviceResponseIdentifiersModel («in» : Option DeviceResponseIdentifiers) :
    Option DeviceResponseIdentifiersModel :=
  match «in» with
  | none => none
  | some i => some { long := i.long, short := i.short }

/-- expandDeviceResponseVersionsModel from wifi_networks_data_source.go. -/
def expandDeviceResponseVersionsModel («in» : Option DeviceResponseVersions) :
    Option DeviceResponseVersionsModel :=
  match «in» with
  | none => none
  | some v => some { api := v.api, app := v.app }

/-- DeviceDataSource.Read from wifi_networks_data_source.go: name, uptime,
identifiers and versions are copied from the decoded envelope; the
features attribute is not assigned (the TODO in the source), so it keeps
whatever value the configuration carried in. -/
def DeviceDataSource.Read : ClientConfig → DeviceDataSourceModel → Server →
    Outcome DeviceDataSourceModel :=
  probeRead "/v1/device/status" decodeDeviceResponse
    fun data r =>
      { data with
        name := some r.name
        uptime := some r.uptime
        identifiers := expandDeviceResponseIdentifiersModel r.identifiers
        versions := expandDeviceResponseVersionsModel r.versions }

/-! ## Provider configuration (part_001, PathfinderProvider) -/

/-- PathfinderProviderModel from part_001: the configured address and the
optional api_key. -/
structure PathfinderProviderModel where
  address : String
  apiKey : String
deriving DecidableEq, Repr

/-- PathfinderProvider.Configure from part_001, lines 433-468: the client
configuration is built from the provider model.  Only the address is
copied; the api_key is never placed into the ClientConfig, whose ApiKey
field is left at its zero value. -/
def PathfinderProvider.Configure (providerConfig : PathfinderProviderModel) : ClientConfig :=
  { address := providerConfig.address, apiKey := "" }

/-! ## Schema validation for the movement resource (part_001, Schema) -/

/-- The OneOf validator declared on the direction attribute. -/
def directionValid (direction : String) : Bool :=
  direction = "forward" || direction = "backward"

/-- The Between validator declared on the distance attribute: the value
must lie in the closed interval from 1.0 to 100.0; NaN and the infinities
fail the comparison. -/
def distanceValid : GoFloat → Bool
  | .finite q => decide (1 ≤ q) && decide (q ≤ 100)
  | .nan => false
  | .inf _ => false

/-- One step passes its declared attribute validators. -/
def stepValid (s : MovementStepsModel) : Bool :=
  directionValid s.direction && distanceValid s.distance

/-- The declared validators of the movement schema: at most 50 steps, and
every step passes its attribute validators. -/
def movementConfigValid (m : MovementResourceModel) : Bool :=
  decide (m.steps.length ≤ 50) && m.steps.all stepValid

/-- The framework-generated validation diagnostic. -/
def validationDiag : Diag := .error "Invalid Attribute Value" "validation"

/-- Modelled from the spec: the plugin framework (an external library, not
under src/) runs the validators declared in MovementResource.Schema before
invoking Create; any violation is reported as a validation diagnostic and
Create is never invoked, so no HTTP request is issued.  This definition
composes that framework contract with the embedded Create. -/
def frameworkCreate (cfg : ClientConfig) (data : MovementResourceModel)
    (server : Server) : Outcome MovementResourceModel :=
  if movementConfigValid data then
    MovementResource.Create cfg data server
  else
    { diagnostics := [validationDiag], state := none, requests := [] }

/-! ## Helper lemmas -/

/-- Marshalling a step item with a finite distance produces its wire
object. -/
theorem marshalStepItem_finite (s : MovementStepItem) (q : ℚ) (h : s.distance = .finite q) :
    marshalStepItem s = .ok (.obj [("angle", .num (s.angle : ℚ)),
      ("direction", .str s.direction), ("distance", .num q)]) := by
  simp [marshalStepItem, h, marshalGoFloat]

theorem unmarshal_marshalStepItem (s : MovementStepItem) (q : ℚ) (h : s.distance = .finite q) :
    unmarshalMovementStepItem (.obj [("angle", .num (s.angle : ℚ)),
      ("direction", .str s.direction), ("distance", .num q)]) = .ok s := by
  obtain ⟨a, d, di⟩ := s
  simp only [] at h
  subst h
  simp [unmarshalMovementStepItem, decodeIntField, decodeStringField, decodeFloatField,
    Json.lookupField]

theorem stepList_roundtrip (ws : List MovementStepItem)
    (h : ∀ s ∈ ws, ∃ q, s.distance = GoFloat.finite q) :
    ∃ js, marshalStepList ws = .ok js ∧ unmarshalStepList js = .ok ws := by
  induction ws with
  | nil => exact ⟨[], rfl, rfl⟩
  | cons s rest ih =>
    obtain ⟨q, hq⟩ := h s (List.mem_cons_self s rest)
    obtain ⟨js, hm, hu⟩ := ih fun t ht => h t (List.mem_cons_of_mem s ht)
    refine ⟨Json.obj [("angle", .num (s.angle : ℚ)), ("direction", .str s.direction),
      ("distance", .num q)] :: js, ?_, ?_⟩
    · simp [marshalStepList, marshalStepItem_finite s q hq, hm]
    · simp [unmarshalStepList, unmarshal_marshalStepItem s q hq, hu]

theorem movementRequest_roundtrip (r : MovementRequest)
    (h : ∀ s ∈ r.steps, ∃ q, s.distance = GoFloat.finite q) :
    ∃ j, jsonMarshalMovementRequest r = .ok j ∧ unmarshalMovementRequest j = .ok r := by
  obtain ⟨js, hm, hu⟩ := stepList_roundtrip r.steps h
  refine ⟨.obj [("name", .str r.name), ("persist", .bool r.persist), ("steps", .arr js)],
    ?_, ?_⟩
  · simp [jsonMarshalMovementRequest, hm]
  · simp [unmarshalMovementRequest, decodeStringField, decodeBoolField, decodeStepsField,
      Json.lookupField, hu]

theorem distanceValid_finite (g : GoFloat) (h : distanceValid g = true) :
    ∃ q, g = GoFloat.finite q ∧ 1 ≤ q ∧ q ≤ 100 := by
  cases g with
  | finite q =>
    simp [distanceValid] at h
    exact ⟨q, rfl, h.1, h.2⟩
  | nan => simp [distanceValid] at h
  | inf b => simp [distanceValid] at h

theorem movementConfigValid_iff (m : MovementResourceModel) :
    movementConfigValid m = true ↔
      m.steps.length ≤ 50 ∧ ∀ s ∈ m.steps, stepValid s = true := by
  simp [movementConfigValid, List.all_eq_true]

theorem probeRead_404 {α σ : Type} (path : String) (dec : Json → Except String α)
    (commit : σ → α → σ) (cfg : ClientConfig) (data : σ) (server : Server) (body : Json)
    (h : server { method := "GET", url := cfg.address ++ path, body := none }
      = .response 404 body) :
    probeRead path dec commit cfg data server
      = { diagnostics := [], state := none,
          requests := [{ method := "GET", url := cfg.address ++ path, body := none }] } := by
  simp [probeRead, h]

/-- C1: the claim that a non-404, non-success HTTP status is reported as a
Failed diagnostic and never treated as a success is refuted at a concrete
input: a health probe read receiving status 500 with a decodable body
produces no diagnostic and commits the decoded value into tracked state. -/
theorem C1_counterexample :
    HealthDataSource.Read { address := "http://p.local", apiKey := "" } { healthy := none }
      (fun _ => .response 500 (.obj [("healthy", .bool true)]))
      = { diagnostics := [], state := some { healthy := some true },
          requests := [{ method := "GET", url := "http://p.local/v1/healthz", body := none }] } :=
  rfl

/-- C1 (amended): after a completed round trip the status code is only
compared against 404; any other status, success or not, is handled
identically, by decoding the body: a decode failure is reported as a
diagnostic and the previously tracked state is kept, and a body that
decodes is treated as success and committed.  Shown for the health probe
and the movement read cited by the claim. -/
theorem C1_amended (cfg : ClientConfig) (hdata : HealthDataSourceModel)
    (mdata : MovementResourceModel) (body : Json) (s1 s2 : Nat)
    (h1 : s1 ≠ 404) (h2 : s2 ≠ 404) :
    (HealthDataSource.Read cfg hdata (fun _ => .response s1 body)
      = HealthDataSource.Read cfg hdata (fun _ => .response s2 body)) ∧
    (MovementResource.Read cfg mdata (fun _ => .response s1 body)
      = MovementResource.Read cfg mdata (fun _ => .response s2 body)) ∧
    (∀ e, decodeMovementResponse body = .error e →
      MovementResource.Read cfg mdata (fun _ => .response s1 body)
        = { diagnostics := [readDecodeDiag e], state := some mdata,
            requests := [⟨"GET", cfg.address ++ "/v1/movement", none⟩] }) ∧
    (∀ r, decodeMovementResponse body = .ok r →
      MovementResource.Read cfg mdata (fun _ => .response s1 body)
        = { diagnostics := [], state := some mdata,
            requests := [⟨"GET", cfg.address ++ "/v1/movement", none⟩] }) := by
  refine ⟨?_, ?_, ?_, ?_⟩
  · simp [HealthDataSource.Read, probeRead, h1, h2]
  · simp [MovementResource.Read, h1, h2]
  · intro e he
    simp [MovementResource.Read, h1, he]
  · intro r hr
    simp [MovementResource.Read, h1, hr]

/-- C1 witness: the amended theorem applied at status 500 versus 200 with a
decodable movement body. -/
theorem C1_amended_witness :
    (MovementResource.Read { address := "http://p.local", apiKey := "" }
      { name := "example", persist := true, steps := [] }
      (fun _ => .response 500 (.obj [("moving", .bool true)]))
      = MovementResource.Read { address := "http://p.local", apiKey := "" }
        { name := "example", persist := true, steps := [] }
        (fun _ => .response 200 (.obj [("moving", .bool true)]))) ∧
    (MovementResource.Read { address := "http://p.local", apiKey := "" }
      { name := "example", persist := true, steps := [] }
      (fun _ => .response 500 (.obj [("moving", .bool true)]))
      = { diagnostics := [], state := some { name := "example", persist := true, steps := [] },
          requests := [⟨"GET", "http://p.local/v1/movement", none⟩] }) :=
  ⟨(C1_amended { address := "http://p.local", apiKey := "" } { healthy := none }
      { name := "example", persist := true, steps := [] }
      (.obj [("moving", .bool true)]) 500 200 (by decide) (by decide)).2.1,
   (C1_amended { address := "http://p.local", apiKey := "" } { healthy := none }
      { name := "example", persist := true, steps := [] }
      (.obj [("moving", .bool true)]) 500 200 (by decide) (by decide)).2.2.2
     { moving := true } rfl⟩

/-- C2: any Create input with a step whose distance lies outside the closed
interval from 1.0 to 100.0 or whose direction is outside the allowed set,
or with more than 50 steps, fails the declared schema validators, is
reported as a validation diagnostic, and no HTTP request is issued. -/
theorem C2_validation_blocks_create (cfg : ClientConfig) (data : MovementResourceModel)
    (server : Server)
    (h : 50 < data.steps.length ∨ ∃ s ∈ data.steps,
      (∃ q, s.distance = GoFloat.finite q ∧ (q < 1 ∨ 100 < q)) ∨
      (s.direction ≠ "forward" ∧ s.direction ≠ "backward")) :
    frameworkCreate cfg data server
      = { diagnostics := [validationDiag], state := none, requests := [] } := by
  have hv : movementConfigValid data = false := by
    rw [← Bool.not_eq_true, movementConfigValid_iff]
    rintro ⟨hlen, hall⟩
    rcases h with hl | ⟨s, hs, hbad⟩
    · omega
    · have hsv := hall s hs
      simp [stepValid, Bool.and_eq_true] at hsv
      rcases hbad with ⟨q, hq, hlt⟩ | ⟨hd1, hd2⟩
      · have hdist := hsv.2
        rw [hq] at hdist
        simp [distanceValid] at hdist
        rcases hlt with hlt | hlt
        · linarith [hdist.1]
        · linarith [hdist.2]
      · have hdir := hsv.1
        simp [directionValid] at hdir
        rcases hdir with h | h <;> simp [h] at hd1 hd2
  simp [frameworkCreate, hv]

/-- C2 witness: a single step whose direction is outside the allowed set. -/
theorem C2_validation_witness :
    (50 < ([({ angle := 90, direction := "right", distance := GoFloat.finite 1 } :
        MovementStepsModel)] : List MovementStepsModel).length ∨
      ∃ s ∈ ([({ angle := 90, direction := "right", distance := GoFloat.finite 1 } :
        MovementStepsModel)] : List MovementStepsModel),
        (∃ q, s.distance = GoFloat.finite q ∧ (q < 1 ∨ 100 < q)) ∨
        (s.direction ≠ "forward" ∧ s.direction ≠ "backward")) ∧
    frameworkCreate { address := "http://p.local", apiKey := "" }
      { name := "example", persist := true,
        steps := [{ angle := 90, direction := "right", distance := GoFloat.finite 1 }] }
      (fun _ => .response 200 .null)
      = { diagnostics := [validationDiag], state := none, requests := [] } :=
  ⟨Or.inr ⟨_, List.mem_singleton.mpr rfl, Or.inr ⟨by decide, by decide⟩⟩,
   C2_validation_blocks_create _ _ _
     (Or.inr ⟨_, List.mem_singleton.mpr rfl, Or.inr ⟨by decide, by decide⟩⟩)⟩

/-- C3: evaluation of Create at a desired value whose wire encoding fails
(a NaN distance).  The marshal failure is reported as a diagnostic, yet
the POST is still issued with an empty body, because the marshal error
branch in the source appends the diagnostic without returning: the claim
that no network call is attempted is violated by the code. -/
theorem C3_encode_failure_still_sends :
    MovementResource.Create { address := "http://p.local", apiKey := "" }
      { name := "example", persist := true,
        steps := [{ angle := 0, direction := "forward", distance := GoFloat.nan }] }
      (fun _ => .response 200 (.obj [("moving", .bool true)]))
      = { diagnostics := [createMarshalDiag "json: unsupported value: NaN"],
          state := some ⟨"example", true, [⟨0, "forward", GoFloat.nan⟩]⟩,
          requests := [⟨"POST", "http://p.local/v1/movement", none⟩] } :=
  rfl

/-- C4: Update issues no HTTP request and its only effect is to overwrite
the tracked snapshot with the newly declared plan value. -/
theorem C4_update_no_network (cfg : ClientConfig) (plan : MovementResourceModel)
    (server : Server) :
    MovementResource.Update cfg plan server
      = { diagnostics := [], state := some plan, requests := [] } :=
  rfl

/-- C5: the claim that on Delete any non-404, non-success status is
reported as a diagnostic and leaves the tracked plan intact is refuted at
a concrete input: a DELETE answered with status 500 and an error-shaped
body that still decodes leniently produces no diagnostic and discards the
tracked plan. -/
theorem C5_counterexample :
    MovementResource.Delete { address := "http://p.local", apiKey := "" }
      { name := "example", persist := true, steps := [] }
      (fun _ => .response 500 (.obj [("message", .str "boom"), ("status", .num 500)]))
      = { diagnostics := [], state := none,
          requests := [⟨"DELETE", "http://p.local/v1/movement", none⟩] } :=
  rfl

/-- C5 (amended): on Delete, a success response and a 404 both discard the
tracked plan; a transport error or a decode failure is reported as a
diagnostic and leaves the tracked plan intact; the status code is not
otherwise inspected, so any non-404 status whose body decodes is also
treated as success and discards the plan. -/
theorem C5_amended (cfg : ClientConfig) (data : MovementResourceModel)
    (body : Json) (msg : String) (s : Nat) (h : s ≠ 404) :
    (MovementResource.Delete cfg data (fun _ => .transportError msg)
      = { diagnostics := [deleteTransportDiag msg], state := some data,
          requests := [⟨"DELETE", cfg.address ++ "/v1/movement", none⟩] }) ∧
    (MovementResource.Delete cfg data (fun _ => .response 404 body)
      = { diagnostics := [], state := none,
          requests := [⟨"DELETE", cfg.address ++ "/v1/movement", none⟩] }) ∧
    (∀ r, decodeMovementResponse body = .ok r →
      MovementResource.Delete cfg data (fun _ => .response s body)
        = { diagnostics := [], state := none,
            requests := [⟨"DELETE", cfg.address ++ "/v1/movement", none⟩] }) ∧
    (∀ e, decodeMovementResponse body = .error e →
      MovementResource.Delete cfg data (fun _ => .response s body)
        = { diagnostics := [deleteDecodeDiag e], state := some data,
            requests := [⟨"DELETE", cfg.address ++ "/v1/movement", none⟩] }) := by
  refine ⟨?_, ?_, ?_, ?_⟩
  · simp [MovementResource.Delete]
  · simp [MovementResource.Delete]
  · intro r hr
    simp [MovementResource.Delete, h, hr]
  · intro e he
    simp [MovementResource.Delete, h, he]

/-- C5 witness: the amended theorem applied at a 200 response with a
decodable body, discharging the non-404 hypothesis. -/
theorem C5_amended_witness :
    (MovementResource.Delete { address := "http://p.local", apiKey := "" }
      { name := "example", persist := true, steps := [] }
      (fun _ => .response 200 (.obj [("moving", .bool false)]))
      = { diagnostics := [], state := none,
          requests := [⟨"DELETE", "http://p.local/v1/movement", none⟩] }) ∧
    (MovementResource.Delete { address := "http://p.local", apiKey := "" }
      { name := "example", persist := true, steps := [] }
      (fun _ => .response 404 (.obj [("moving", .bool false)]))
      = { diagnostics := [], state := none,
          requests := [⟨"DELETE", "http://p.local/v1/movement", none⟩] }) :=
  ⟨(C5_amended { address := "http://p.local", apiKey := "" }
      { name := "example", persist := true, steps := [] }
      (.obj [("moving", .bool false)]) "m" 200 (by decide)).2.2.1
      { moving := false } rfl,
   (C5_amended { address := "http://p.local", apiKey := "" }
      { name := "example", persist := true, steps := [] }
      (.obj [("moving", .bool false)]) "m" 200 (by decide)).2.1⟩

/-- C6: when the POST succeeds (any non-404 status) and the body decodes
as the movement status envelope, the committed tracked snapshot equals
the declared plan value itself; the decoded moving boolean is quantified
over and never merged into the tracked attributes. -/
theorem C6_create_commits_declared (cfg : ClientConfig) (data : MovementResourceModel)
    (server : Server) (j body : Json) (status : Nat) (r : MovementResponse)
    (hm : jsonMarshalMovementRequest (toMovementRequest data) = .ok j)
    (hs : server ⟨"POST", cfg.address ++ "/v1/movement", some j⟩ = .response status body)
    (h404 : status ≠ 404)
    (hd : decodeMovementResponse body = .ok r) :
    MovementResource.Create cfg data server
      = { diagnostics := [], state := some data,
          requests := [⟨"POST", cfg.address ++ "/v1/movement", some j⟩] } := by
  simp [MovementResource.Create, hm, hs, h404, hd]

/-- C6 witness: the end-to-end scenario of the claim, a Create of one
forward step against a server answering 201 with a moving true body. -/
theorem C6_create_witness :
    MovementResource.Create { address := "http://p.local", apiKey := "" }
      { name := "example", persist := true,
        steps := [{ angle := 0, direction := "forward", distance := GoFloat.finite 1 }] }
      (fun _ => .response 201 (.obj [("moving", .bool true)]))
      = { diagnostics := [],
          state := some ⟨"example", true, [⟨0, "forward", GoFloat.finite 1⟩]⟩,
          requests := [⟨"POST", "http://p.local/v1/movement",
            some (.obj [("name", .str "example"), ("persist", .bool true),
              ("steps", .arr [.obj [("angle", .num ((0 : Int) : ℚ)),
                ("direction", .str "forward"), ("distance", .num 1)]])])⟩] } :=
  C6_create_commits_declared _ _ _ _ _ 201 { moving := true } rfl rfl (by decide) rfl

/-- C7: for each of the six read-only probes and the movement GET, an HTTP
404 response clears the previously tracked object from state and surfaces
no diagnostic. -/
theorem C7_read_404_clears (cfg : ClientConfig) (server : Server) (body : Json)
    (h : ∀ req, server req = .response 404 body)
    (hd : HealthDataSourceModel) (rd : ReadyDataSourceModel)
    (bd : BatteryDataSourceModel) (ld : MovementLockDataSourceModel)
    (wd : WifiNetworksDataSourceModel) (dd : DeviceDataSourceModel)
    (md : MovementResourceModel) :
    (HealthDataSource.Read cfg hd server
      = { diagnostics := [], state := none,
          requests := [⟨"GET", cfg.address ++ "/v1/healthz", none⟩] }) ∧
    (ReadyDataSource.Read cfg rd server
      = { diagnostics := [], state := none,
          requests := [⟨"GET", cfg.address ++ "/v1/readyz", none⟩] }) ∧
    (BatteryDataSource.Read cfg bd server
      = { diagnostics := [], state := none,
          requests := [⟨"GET", cfg.address ++ "/v1/device/battery", none⟩] }) ∧
    (MovementLockDataSource.Read cfg ld server
      = { diagnostics := [], state := none,
          requests := [⟨"GET", cfg.address ++ "/v1/movement/lock", none⟩] }) ∧
    (WifiNetworksDataSource.Read cfg wd server
      = { diagnostics := [], state := none,
          requests := [⟨"GET", cfg.address ++ "/v1/device/wifi", none⟩] }) ∧
    (DeviceDataSource.Read cfg dd server
      = { diagnostics := [], state := none,
          requests := [⟨"GET", cfg.address ++ "/v1/device/status", none⟩] }) ∧
    (MovementResource.Read cfg md server
      = { diagnostics := [], state := none,
          requests := [⟨"GET", cfg.address ++ "/v1/movement", none⟩] }) := by
  refine ⟨?_, ?_, ?_, ?_, ?_, ?_, ?_⟩
  · exact probeRead_404 _ _ _ cfg hd server body (h _)
  · exact probeRead_404 _ _ _ cfg rd server body (h _)
  · exact probeRead_404 _ _ _ cfg bd server body (h _)
  · exact probeRead_404 _ _ _ cfg ld server body (h _)
  · exact probeRead_404 _ _ _ cfg wd server body (h _)
  · exact probeRead_404 _ _ _ cfg dd server body (h _)
  · simp [MovementResource.Read, h]

/-- C7 witness: the theorem applied to a server that always answers 404. -/
theorem C7_read_404_witness :
    (HealthDataSource.Read { address := "http://p.local", apiKey := "" } { healthy := none }
      (fun _ => .response 404 .null)
      = { diagnostics := [], state := none,
          requests := [⟨"GET", "http://p.local/v1/healthz", none⟩] }) ∧
    (MovementResource.Read { address := "http://p.local", apiKey := "" }
      { name := "example", persist := true, steps := [] }
      (fun _ => .response 404 .null)
      = { diagnostics := [], state := none,
          requests := [⟨"GET", "http://p.local/v1/movement", none⟩] }) :=
  ⟨(C7_read_404_clears { address := "http://p.local", apiKey := "" }
      (fun _ => .response 404 .null) .null (fun _ => rfl)
      { healthy := none } { ready := none } { value := none, unit := none }
      { locked := none } { networks := [] }
      { name := none, uptime := none, identifiers := none, versions := none,
        features := none }
      { name := "example", persist := true, steps := [] }).1,
   (C7_read_404_clears { address := "http://p.local", apiKey := "" }
      (fun _ => .response 404 .null) .null (fun _ => rfl)
      { healthy := none } { ready := none } { value := none, unit := none }
      { locked := none } { networks := [] }
      { name := none, uptime := none, identifiers := none, versions := none,
        features := none }
      { name := "example", persist := true, steps := [] }).2.2.2.2.2.2⟩

/-- C8: for every step sequence of length at most 50 with directions in
the allowed set and distances in the closed interval from 1.0 to 100.0,
translating the declared steps into the wire movement request and
decoding it back is the identity: the marshal succeeds, the unmarshal
returns the same request, the wire step list has the same length, and the
wire item at index i carries the angle, direction and distance of step i. -/
theorem C8_encode_decode_roundtrip (name : String) (persist : Bool)
    (steps : List MovementStepsModel)
    (hlen : steps.length ≤ 50)
    (hdir : ∀ s ∈ steps, s.direction = "forward" ∨ s.direction = "backward")
    (hdist : ∀ s ∈ steps, ∃ q, s.distance = GoFloat.finite q ∧ 1 ≤ q ∧ q ≤ 100) :
    (∃ j, jsonMarshalMovementRequest (toMovementRequest ⟨name, persist, steps⟩) = .ok j ∧
      unmarshalMovementRequest j = .ok (toMovementRequest ⟨name, persist, steps⟩)) ∧
    (toMovementRequest ⟨name, persist, steps⟩).steps.length = steps.length ∧
    ∀ i (hi : i < steps.length)
      (hw : i < (toMovementRequest ⟨name, persist, steps⟩).steps.length),
      ((toMovementRequest ⟨name, persist, steps⟩).steps.get ⟨i, hw⟩).angle
          = (steps.get ⟨i, hi⟩).angle ∧
      ((toMovementRequest ⟨name, persist, steps⟩).steps.get ⟨i, hw⟩).direction
          = (steps.get ⟨i, hi⟩).direction ∧
      ((toMovementRequest ⟨name, persist, steps⟩).steps.get ⟨i, hw⟩).distance
          = (steps.get ⟨i, hi⟩).distance := by
  refine ⟨?_, ?_, ?_⟩
  · apply movementRequest_roundtrip
    intro s hs
    simp [toMovementRequest] at hs
    obtain ⟨t, ht, rfl⟩ := hs
    obtain ⟨q, hq, _, _⟩ := hdist t ht
    exact ⟨q, hq⟩
  · simp [toMovementRequest]
  · intro i hi hw
    simp [toMovementRequest, toMovementStepItem]

/-- C8 witness: the roundtrip at a one-step sequence. -/
theorem C8_roundtrip_witness :
    (([({ angle := 0, direction := "forward", distance := GoFloat.finite 1 } :
        MovementStepsModel)] : List MovementStepsModel).length ≤ 50) ∧
    (∃ j, jsonMarshalMovementRequest (toMovementRequest
        ⟨"example", true, [⟨0, "forward", GoFloat.finite 1⟩]⟩) = .ok j ∧
      unmarshalMovementRequest j = .ok (toMovementRequest
        ⟨"example", true, [⟨0, "forward", GoFloat.finite 1⟩]⟩)) :=
  ⟨by decide,
   (C8_encode_decode_roundtrip "example" true [⟨0, "forward", GoFloat.finite 1⟩]
     (by decide)
     (by intro s hs; simp at hs; subst hs; exact Or.inl rfl)
     (by intro s hs; simp at hs; subst hs; exact ⟨1, rfl, by norm_num, by norm_num⟩)).1⟩

/-- C9: on every device probe read whose state is committed, the features
attribute is exactly what the configuration carried in, never populated
from the decoded response; and on a successful decode the name, uptime,
identifiers and versions attributes are populated from the decoded
envelope while features is left unchanged. -/
theorem C9_features_never_populated (cfg : ClientConfig) (data : DeviceDataSourceModel)
    (server : Server) :
    (∀ m, (DeviceDataSource.Read cfg data server).state = some m →
      m.features = data.features) ∧
    (∀ (s : Nat) (body : Json) (r : DeviceResponse), s ≠ 404 →
      server ⟨"GET", cfg.address ++ "/v1/device/status", none⟩ = .response s body →
      decodeDeviceResponse body = .ok r →
      DeviceDataSource.Read cfg data server
        = { diagnostics := [],
            state := some ⟨some r.name, some r.uptime,
              expandDeviceResponseIdentifiersModel r.identifiers,
              expandDeviceResponseVersionsModel r.versions, data.features⟩,
            requests := [⟨"GET", cfg.address ++ "/v1/device/status", none⟩] }) := by
  constructor
  · intro m
    unfold DeviceDataSource.Read probeRead
    rcases hs : server ⟨"GET", cfg.address ++ "/v1/device/status", none⟩ with msg | ⟨st, body⟩
    · simp [hs]
      rintro rfl
      rfl
    · by_cases h4 : st = 404
      · simp [hs, h4]
      · rcases hdec : decodeDeviceResponse body with e | v
        · simp [hs, h4, hdec]
          rintro rfl
          rfl
        · simp [hs, h4, hdec]
          rintro rfl
          rfl
  · intro s body r h404 hs hdec
    simp [DeviceDataSource.Read, probeRead, hs, h404, hdec]

/-- C9 witness: the theorem applied at a server answering 200 with a
features map in the body; the committed state keeps the configured null
features value. -/
theorem C9_features_witness :
    DeviceDataSource.Read { address := "http://p.local", apiKey := "" }
      { name := none, uptime := none, identifiers := none, versions := none,
        features := none }
      (fun _ => .response 200 (.obj [("name", .str "pf"),
        ("features", .obj [("lidar", .bool true)]), ("uptime", .num 7)]))
      = { diagnostics := [],
          state := some ⟨some "pf", some (GoFloat.finite 7), none, none, none⟩,
          requests := [⟨"GET", "http://p.local/v1/device/status", none⟩] } :=
  (C9_features_never_populated { address := "http://p.local", apiKey := "" }
    { name := none, uptime := none, identifiers := none, versions := none,
      features := none }
    (fun _ => .response 200 (.obj [("name", .str "pf"),
      ("features", .obj [("lidar", .bool true)]), ("uptime", .num 7)]))).2
    200 (.obj [("name", .str "pf"), ("features", .obj [("lidar", .bool true)]),
      ("uptime", .num 7)])
    { features := [("lidar", true)], identifiers := none, name := "pf",
      uptime := .finite 7, versions := none }
    (by decide) rfl rfl

/-- C10: the configured api_key never influences outgoing traffic: the
client configuration built by Configure is identical for any two api_key
values, the ApiKey field of the client configuration is left empty, and
every operation of the provider issues identical requests under the two
configurations. -/
theorem C10_api_key_independent (addr k1 k2 : String) (server : Server)
    (mdata : MovementResourceModel) (hd : HealthDataSourceModel)
    (rd : ReadyDataSourceModel) (bd : BatteryDataSourceModel)
    (ld : MovementLockDataSourceModel) (wd : WifiNetworksDataSourceModel)
    (dd : DeviceDataSourceModel) :
    (PathfinderProvider.Configure ⟨addr, k1⟩ = PathfinderProvider.Configure ⟨addr, k2⟩) ∧
    ((PathfinderProvider.Configure ⟨addr, k1⟩).apiKey = "") ∧
    ((MovementResource.Create (PathfinderProvider.Configure ⟨addr, k1⟩) mdata server).requests
      = (MovementResource.Create (PathfinderProvider.Configure ⟨addr, k2⟩) mdata server).requests) ∧
    ((MovementResource.Read (PathfinderProvider.Configure ⟨addr, k1⟩) mdata server).requests
      = (MovementResource.Read (PathfinderProvider.Configure ⟨addr, k2⟩) mdata server).requests) ∧
    ((MovementResource.Update (PathfinderProvider.Configure ⟨addr, k1⟩) mdata server).requests
      = (MovementResource.Update (PathfinderProvider.Configure ⟨addr, k2⟩) mdata server).requests) ∧
    ((MovementResource.Delete (PathfinderProvider.Configure ⟨addr, k1⟩) mdata server).requests
      = (MovementResource.Delete (PathfinderProvider.Configure ⟨addr, k2⟩) mdata server).requests) ∧
    ((HealthDataSource.Read (PathfinderProvider.Configure ⟨addr, k1⟩) hd server).requests
      = (HealthDataSource.Read (PathfinderProvider.Configure ⟨addr, k2⟩) hd server).requests) ∧
    ((ReadyDataSource.Read (PathfinderProvider.Configure ⟨addr, k1⟩) rd server).requests
      = (ReadyDataSource.Read (PathfinderProvider.Configure ⟨addr, k2⟩) rd server).requests) ∧
    ((BatteryDataSource.Read (PathfinderProvider.Configure ⟨addr, k1⟩) bd server).requests
      = (BatteryDataSource.Read (PathfinderProvider.Configure ⟨addr, k2⟩) bd server).requests) ∧
    ((MovementLockDataSource.Read (PathfinderProvider.Configure ⟨addr, k1⟩) ld server).requests
      = (MovementLockDataSource.Read (PathfinderProvider.Configure ⟨addr, k2⟩) ld server).requests) ∧
    ((WifiNetworksDataSource.Read (PathfinderProvider.Configure ⟨addr, k1⟩) wd server).requests
      = (WifiNetworksDataSource.Read (PathfinderProvider.Configure ⟨addr, k2⟩) wd server).requests) ∧
    ((DeviceDataSource.Read (PathfinderProvider.Configure ⟨addr, k1⟩) dd server).requests
      = (DeviceDataSource.Read (PathfinderProvider.Configure ⟨addr, k2⟩) dd server).requests) :=
  ⟨rfl, rfl, rfl, rfl, rfl, rfl, rfl, rfl, rfl, rfl, rfl, rfl⟩
